import Mathlib

/-!
Shallow embedding of the two chatbot backends of this repository:
`app.py` (Service A: prompt assembly, retry controller, HTTP boundary) and
`charan.py` (Service B: exact-match cache over a persistent store).

Python strings are modelled as Lean `String`; `str.strip()` and `str.lower()`
are modelled for ASCII characters (`pyStrip`, `pyLower`); the substring test
`pat in s` is `strContains`.  The external generative capability is an
abstract function passed in explicitly: for Service A it is indexed by the
attempt number so that stubs failing on some attempts can be expressed; for
Service B it is a plain `String → String` (the claims only exercise the
success path there).  Exceptions are modelled as a (type name, message) pair;
`time.sleep` calls are recorded in a trace list of durations.
-/

/-- Mirrors Python `str.isspace()` on the ASCII whitespace characters that the
claims exercise. -/
def pyIsSpace (c : Char) : Bool :=
  c == ' ' || c == '\t' || c == '\n' || c == '\r'

/-- Strip leading and trailing whitespace from a character list. -/
def stripChars (l : List Char) : List Char :=
  ((l.dropWhile pyIsSpace).reverse.dropWhile pyIsSpace).reverse

/-- Python `s.strip()` (ASCII whitespace). -/
def pyStrip (s : String) : String :=
  String.mk (stripChars s.data)

/-- Python `s.lower()` (ASCII case folding, which covers the markers the code
tests for). -/
def pyLower (s : String) : String :=
  String.mk (s.data.map Char.toLower)

/-- Tests whether `pat` is a prefix of the second list: `listPrefixOf pat l` is true exactly when `pat` is a prefix of `l`. -/
def listPrefixOf : List Char → List Char → Bool
  | [], _ => true
  | _ :: _, [] => false
  | c :: cs, d :: ds => c == d && listPrefixOf cs ds

/-- Tests whether `pat` occurs contiguously inside the second list. -/
def listInfixOf (pat : List Char) : List Char → Bool
  | [] => listPrefixOf pat []
  | c :: t => listPrefixOf pat (c :: t) || listInfixOf pat t

/-- Python `pat in s` on strings. -/
def strContains (s pat : String) : Bool :=
  listInfixOf pat.data s.data

/-! ## Python values and exceptions

`handle_submit` receives a decoded JSON body and reaches into it with
`dict.get`; a minimal Python value universe suffices for that. -/

/-- A decoded JSON / Python value as used by the handlers. -/
inductive PyVal : Type
  | none : PyVal
  | str : String → PyVal
  | list : List PyVal → PyVal
  | dict : List (String × PyVal) → PyVal

/-- A raised Python exception: class name and `str(e)`. -/
structure PyExc where
  ty : String
  msg : String
deriving DecidableEq

/-- Python `str(v)` as used in f-string interpolation.  Exact for the scalar
values the handlers interpolate; container reprs are abbreviated (no claim
renders a container inside an f-string). -/
def pyStr : PyVal → String
  | .none => "None"
  | .str s => s
  | .list _ => "[...]"
  | .dict _ => "\x7b...\x7d"

/-- Python `v.get(key, default)`: raises `AttributeError` unless `v` is a
dict. -/
def pyGet (v : PyVal) (key : String) (dflt : PyVal) : Except String PyVal :=
  match v with
  | .dict fs => .ok (((fs.find? (fun p => p.1 == key)).map Prod.snd).getD dflt)
  | _ => .error "AttributeError: object has no attribute get"

/-- Python `len(v)`: raises `TypeError` for values without a length. -/
def pyLen : PyVal → Except String Nat
  | .list xs => .ok xs.length
  | .str s => .ok s.length
  | .dict fs => .ok fs.length
  | .none => .error "TypeError: object of type NoneType has no len"

/-- Python `for x in v`: the sequence of iterated values, or a `TypeError`.
Iterating a string yields its characters; iterating a dict yields its keys. -/
def pyIter : PyVal → Except String (List PyVal)
  | .list xs => .ok xs
  | .str s => .ok (s.data.map (fun c => .str (String.mk [c])))
  | .dict fs => .ok (fs.map (fun p => .str p.1))
  | .none => .error "TypeError: NoneType object is not iterable"

namespace App

/-! ## Service A — `app.py` -/

/-- Models the Python test `msg.get('role') == 'user'` (equality of an
arbitrary value with the string literal `'user'`). -/
def isUserRole : PyVal → Bool
  | .str s => s == "user"
  | _ => false

/-- One iteration of the conversation-building loop of `chat_with_gemini`
(app.py lines 30–34): renders `"You: <content>\n"` for user turns and
`"Bot: <content>\n"` otherwise; raises `AttributeError` when the history
item is not a dict. -/
def renderTurn (msg : PyVal) : Except String String :=
  match msg with
  | .dict fs =>
    let role := ((fs.find? (fun p => p.1 == "role")).map Prod.snd).getD .none
    let content := ((fs.find? (fun p => p.1 == "content")).map Prod.snd).getD (.str "")
    .ok ((if isUserRole role then "You: " else "Bot: ") ++ pyStr content ++ "\n")
  | _ => .error "AttributeError: object has no attribute get"

/-- The conversation string built by `chat_with_gemini` (app.py lines 29–34):
the concatenation of the rendered turns in input order, stopping with the
exception of the first turn that fails to render. -/
def buildConversation : List PyVal → Except String String
  | [] => .ok ""
  | msg :: rest => do
    let line ← renderTurn msg
    let restConv ← buildConversation rest
    .ok (line ++ restConv)

/-- The non-retryable classification of app.py line 45–47:
`msg = str(e).lower()`, then `'403' in msg or 'leaked' in msg or
'invalid' in msg or 'permission' in msg`. -/
def nonRetryableMsg (e : String) : Bool :=
  let msg := pyLower e
  strContains msg "403" || strContains msg "leaked" ||
    strContains msg "invalid" || strContains msg "permission"

/-- What `chat_with_gemini` does after building the conversation: return a
value (`some` text, or `none` when the loop body never runs) or raise. -/
inductive ChatOutcome : Type
  | returns : Option String → ChatOutcome
  | raises : PyExc → ChatOutcome
deriving DecidableEq

/-- The message of the fatal error raised on a non-retryable failure
(app.py line 50). -/
def nonRetryableErrMsg (e : String) : String :=
  "Generative API error: " ++ e

/-- The message of the fatal error raised when all retries are exhausted
(app.py line 59). -/
def exhaustedErrMsg (retries : Nat) (e : String) : String :=
  "Generative API failed after " ++ (toString retries ++ (" attempts: " ++ e))

/-- The retry loop of `chat_with_gemini` (app.py lines 37–59), from the state
at the top of an iteration.  `gen attempt conv` is the external generation
capability at the given attempt (success text or `str(e)` of the failure);
`fuel` is the number of loop iterations left (`retries + 1 - attempt`);
`calls` counts capability invocations so far and `sleeps` records the
`time.sleep` durations so far, in order.  Returns the outcome together with
the final call count and sleep trace. -/
def retryAttempts (gen : Nat → String → Except String String) (conv : String)
    (retries : Nat) :
    Nat → Nat → Nat → Nat → List Nat → ChatOutcome × Nat × List Nat
  | 0, _, _, calls, sleeps => (.returns Option.none, calls, sleeps)
  | fuel + 1, attempt, backoff, calls, sleeps =>
    match gen attempt conv with
    | .ok resp => (.returns (some (pyStrip resp)), calls + 1, sleeps)
    | .error e =>
      if nonRetryableMsg e then
        (.raises ⟨"RuntimeError", nonRetryableErrMsg e⟩, calls + 1, sleeps)
      else if attempt < retries then
        retryAttempts gen conv retries fuel (attempt + 1) (min (backoff * 2) 10)
          (calls + 1) (sleeps ++ [backoff])
      else
        (.raises ⟨"RuntimeError", exhaustedErrMsg retries e⟩, calls + 1, sleeps)

/-- Models `chat_with_gemini(history, retries=3)` (app.py lines 24–59): builds the
conversation string from the history, then runs the retry loop with
`backoff = 1` starting at attempt 1.  A failure while iterating or rendering
the history propagates as a raised exception with zero capability calls. -/
def chat_with_gemini (gen : Nat → String → Except String String)
    (history : PyVal) (retries : Nat := 3) : ChatOutcome × Nat × List Nat :=
  match pyIter history with
  | .error e => (.raises ⟨"TypeError", e⟩, 0, [])
  | .ok msgs =>
    match buildConversation msgs with
    | .error e => (.raises ⟨"AttributeError", e⟩, 0, [])
    | .ok conv => retryAttempts gen conv retries retries 1 1 0 []

/-- The value `jsonify` receives for the `response` key. -/
def optToPy : Option String → PyVal
  | Option.none => PyVal.none
  | some t => PyVal.str t

/-- What `handle_submit` produces: an HTTP response (status code and JSON
object body), or an exception that escapes the handler uncaught. -/
inductive HandlerOutcome : Type
  | resp : Nat → List (String × PyVal) → HandlerOutcome
  | unhandled : PyExc → HandlerOutcome

/-- Models `handle_submit` (app.py lines 63–75).  `body` is the decoded request
JSON, `Option.none` when the body is not valid JSON (then
`request.get_json()` raises before the `try` block).  Crucially,
`data.get('history', [])` on line 66 also runs before the `try` block, so on
a non-dict body its `AttributeError` escapes the handler.  Inside the `try`,
`len(history)` and `chat_with_gemini(history)` run; any exception there is
caught and converted to a 500 JSON payload. -/
def handle_submit (gen : Nat → String → Except String String)
    (body : Option PyVal) : HandlerOutcome :=
  match body with
  | Option.none => .unhandled ⟨"BadRequest", "400 Bad Request: failed to decode JSON"⟩
  | some data =>
    match pyGet data "history" (.list []) with
    | .error e => .unhandled ⟨"AttributeError", e⟩
    | .ok history =>
      match pyLen history with
      | .error e => .resp 500 [("error", .str "Internal server error"), ("detail", .str e)]
      | .ok _ =>
        match chat_with_gemini gen history with
        | (.raises e, _, _) =>
          .resp 500 [("error", .str "Internal server error"), ("detail", .str e.msg)]
        | (.returns v, _, _) => .resp 200 [("response", optToPy v)]

end App

namespace Charan

/-! ## Service B — `charan.py` -/

/-- A row of the `chatbot_responses` table (charan.py lines 15–21); the
autoincrement id is the position in the list. -/
structure CacheEntry where
  question : String
  response : String
deriving DecidableEq

/-- Models `init_db` (charan.py lines 12–23): creates the table if absent; a fresh
store is empty. -/
def init_db : List CacheEntry := []

/-- Models `SELECT response FROM chatbot_responses WHERE question = ?`
followed by `fetchone()` (charan.py lines 43–44): the response of the first row whose
question is byte-identical to the key. -/
def dbLookup (db : List CacheEntry) (q : String) : Option String :=
  (db.find? (fun e => e.question == q)).map CacheEntry.response

/-- Models `chat_with_gemini(prompt)` (charan.py lines 27–30): call the capability
once and strip the response. -/
def chat_with_gemini (gen : String → String) (prompt : String) : String :=
  pyStrip (gen prompt)

/-- The observable result of one `get_response` request: the JSON `response`
value, the store contents afterwards, and how many times the external
capability was invoked. -/
structure GetResponseResult where
  response : String
  db : List CacheEntry
  apiCalls : Nat
deriving DecidableEq

/-- Models `get_response` (charan.py lines 36–54): look the message up by exact
match; on a hit return the stored response without calling the capability;
on a miss call `chat_with_gemini` once, insert the `(question, response)`
row and return the response. -/
def get_response (gen : String → String) (db : List CacheEntry)
    (userInput : String) : GetResponseResult :=
  match dbLookup db userInput with
  | some r => ⟨r, db, 0⟩
  | Option.none =>
    let botResponse := chat_with_gemini gen userInput
    ⟨botResponse, db ++ [⟨userInput, botResponse⟩], 1⟩

/-- A sequence of `get_response` requests executed one at a time, tracking
only the evolving store. -/
def runRequests (gen : String → String) : List String → List CacheEntry → List CacheEntry
  | [], db => db
  | q :: qs, db => runRequests gen qs (get_response gen db q).db

end Charan

/-! ## Spec-side formulas and general lemmas for the retry controller -/

namespace App

/-- The sleep durations of the first `m` retries, as the spec states them:
the `k`-th recorded sleep (0-based) lasts `min (2 ^ k) 10` time units. -/
def backoffs (m : Nat) : List Nat :=
  (List.range m).map (fun k => min (2 ^ k) 10)

lemma backoffs_zero : backoffs 0 = [] := rfl

lemma backoffs_succ (m : Nat) :
    backoffs (m + 1) = backoffs m ++ [min (2 ^ m) 10] := by
  simp [backoffs, List.range_succ]

/-- Doubling a capped backoff keeps it in the capped-power form. -/
lemma backoff_double (k : Nat) :
    min (min (2 ^ k) 10 * 2) 10 = min (2 ^ (k + 1)) 10 := by
  have h : 2 ^ (k + 1) = 2 ^ k * 2 := pow_succ 2 k
  omega

/-- One transient failure at a non-final attempt advances the loop state from
attempt `a` to attempt `a + 1`, recording a sleep of the current backoff. -/
lemma retryAttempts_step_transient (gen : Nat → String → Except String String)
    (conv : String) (retries a : Nat) (e : String)
    (ha1 : 1 ≤ a) (har : a < retries)
    (hg : gen a conv = .error e) (ht : nonRetryableMsg e = false) :
    retryAttempts gen conv retries (retries + 1 - a) a (min (2 ^ (a - 1)) 10)
        (a - 1) (backoffs (a - 1)) =
      retryAttempts gen conv retries (retries + 1 - (a + 1)) (a + 1)
        (min (2 ^ a) 10) a (backoffs a) := by
  have hfuel : retries + 1 - a = (retries + 1 - (a + 1)) + 1 := by omega
  rw [hfuel, retryAttempts, hg]
  simp only [ht, Bool.false_eq_true, if_false, if_pos har]
  have h1 : a - 1 + 1 = a := by omega
  rw [backoff_double, ← backoffs_succ, h1]

/-- If every attempt before `j` fails transiently, the loop reaches the state
at the top of attempt `j`. -/
lemma retryAttempts_reach (gen : Nat → String → Except String String)
    (conv : String) (retries j : Nat) (hj1 : 1 ≤ j) (hjr : j ≤ retries)
    (htrans : ∀ i, 1 ≤ i → i < j →
      ∃ e, gen i conv = .error e ∧ nonRetryableMsg e = false) :
    retryAttempts gen conv retries retries 1 1 0 [] =
      retryAttempts gen conv retries (retries + 1 - j) j (min (2 ^ (j - 1)) 10)
        (j - 1) (backoffs (j - 1)) := by
  induction j, hj1 using Nat.le_induction with
  | base =>
    have h : retries + 1 - 1 = retries := by omega
    simp [h, backoffs]
  | succ j hj ih =>
    have hjr' : j ≤ retries := by omega
    obtain ⟨e, hg, ht⟩ := htrans j hj (by omega)
    calc retryAttempts gen conv retries retries 1 1 0 []
        = retryAttempts gen conv retries (retries + 1 - j) j
            (min (2 ^ (j - 1)) 10) (j - 1) (backoffs (j - 1)) :=
          ih hjr' (fun i h1 h2 => htrans i h1 (by omega))
      _ = retryAttempts gen conv retries (retries + 1 - (j + 1)) (j + 1)
            (min (2 ^ j) 10) j (backoffs j) :=
          retryAttempts_step_transient gen conv retries j e hj (by omega) hg ht
      _ = retryAttempts gen conv retries (retries + 1 - (j + 1)) (j + 1)
            (min (2 ^ (j + 1 - 1)) 10) (j + 1 - 1) (backoffs (j + 1 - 1)) := by
          simp

/-- With the conversation already built, `chat_with_gemini` on a list history
is exactly the retry loop started at attempt 1 with backoff 1. -/
lemma chat_with_gemini_run (gen : Nat → String → Except String String)
    (msgs : List PyVal) (conv : String) (retries : Nat)
    (hconv : buildConversation msgs = .ok conv) :
    chat_with_gemini gen (PyVal.list msgs) retries =
      retryAttempts gen conv retries retries 1 1 0 [] := by
  simp [chat_with_gemini, pyIter, hconv]

/-- If attempts `1..j-1` fail transiently and attempt `j ≤ retries` succeeds
with text `r`, the loop returns `pyStrip r` after exactly `j` calls with the
first `j - 1` capped-exponential sleeps. -/
lemma retryAttempts_success_at (gen : Nat → String → Except String String)
    (conv : String) (retries j : Nat) (r : String)
    (hj1 : 1 ≤ j) (hjr : j ≤ retries)
    (htrans : ∀ i, 1 ≤ i → i < j →
      ∃ e, gen i conv = .error e ∧ nonRetryableMsg e = false)
    (hok : gen j conv = .ok r) :
    retryAttempts gen conv retries retries 1 1 0 [] =
      (.returns (some (pyStrip r)), j, backoffs (j - 1)) := by
  rw [retryAttempts_reach gen conv retries j hj1 hjr htrans]
  have hfuel : retries + 1 - j = (retries - j) + 1 := by omega
  rw [hfuel, retryAttempts, hok]
  have h1 : j - 1 + 1 = j := by omega
  rw [h1]

/-- If attempts `1..j-1` fail transiently and attempt `j ≤ retries` fails
non-retryably, the loop raises `RuntimeError` with the fatal message after
exactly `j` calls, with no further sleep. -/
lemma retryAttempts_nonretryable_at (gen : Nat → String → Except String String)
    (conv : String) (retries j : Nat) (e : String)
    (hj1 : 1 ≤ j) (hjr : j ≤ retries)
    (htrans : ∀ i, 1 ≤ i → i < j →
      ∃ e', gen i conv = .error e' ∧ nonRetryableMsg e' = false)
    (hg : gen j conv = .error e) (hnr : nonRetryableMsg e = true) :
    retryAttempts gen conv retries retries 1 1 0 [] =
      (.raises ⟨"RuntimeError", nonRetryableErrMsg e⟩, j, backoffs (j - 1)) := by
  rw [retryAttempts_reach gen conv retries j hj1 hjr htrans]
  have hfuel : retries + 1 - j = (retries - j) + 1 := by omega
  rw [hfuel, retryAttempts, hg]
  simp only [hnr, if_true]
  have h1 : j - 1 + 1 = j := by omega
  rw [h1]

/-- If every attempt up to the budget fails transiently, the loop raises the
retries-exhausted `RuntimeError` after exactly `retries` calls. -/
lemma retryAttempts_exhausted (gen : Nat → String → Except String String)
    (conv : String) (retries : Nat) (e : String) (hr : 1 ≤ retries)
    (htrans : ∀ i, 1 ≤ i → i < retries →
      ∃ e', gen i conv = .error e' ∧ nonRetryableMsg e' = false)
    (hg : gen retries conv = .error e) (ht : nonRetryableMsg e = false) :
    retryAttempts gen conv retries retries 1 1 0 [] =
      (.raises ⟨"RuntimeError", exhaustedErrMsg retries e⟩, retries,
        backoffs (retries - 1)) := by
  rw [retryAttempts_reach gen conv retries retries hr le_rfl htrans]
  have hfuel : retries + 1 - retries = 0 + 1 := by omega
  rw [hfuel, retryAttempts, hg]
  simp only [ht, Bool.false_eq_true, if_false, lt_irrefl, if_neg (lt_irrefl retries)]
  have h1 : retries - 1 + 1 = retries := by omega
  rw [h1]

end App

namespace App

/-- The two fatal messages can never coincide: they differ at character 15
(`'e'` of `error` versus `'f'` of `failed`). -/
lemma exhaustedErrMsg_ne_nonRetryableErrMsg (r : Nat) (e e' : String) :
    exhaustedErrMsg r e ≠ nonRetryableErrMsg e' := by
  intro h
  have h2 := congrArg (fun s => s.data[15]?) h
  simp only [exhaustedErrMsg, nonRetryableErrMsg, String.data_append] at h2
  rw [List.getElem?_append_left (by decide),
    List.getElem?_append_left (by decide)] at h2
  exact absurd h2 (by decide)

end App

/-- C1. Retry controller success path: with the default budget of 3, a
capability that fails transiently on attempts 1 and 2 and succeeds on
attempt 3 is invoked exactly 3 times; the controller sleeps exactly twice,
for 1 then 2 time units, and returns the third response's text with leading
and trailing whitespace stripped. -/
theorem chat_with_gemini_retry_success
    (gen : Nat → String → Except String String) (msgs : List PyVal)
    (conv e1 e2 r : String)
    (hconv : App.buildConversation msgs = .ok conv)
    (h1 : gen 1 conv = .error e1) (h1t : App.nonRetryableMsg e1 = false)
    (h2 : gen 2 conv = .error e2) (h2t : App.nonRetryableMsg e2 = false)
    (h3 : gen 3 conv = .ok r) :
    App.chat_with_gemini gen (PyVal.list msgs) 3 =
      (.returns (some (pyStrip r)), 3, [1, 2]) := by
  rw [App.chat_with_gemini_run gen msgs conv 3 hconv]
  have htrans : ∀ i, 1 ≤ i → i < 3 →
      ∃ e, gen i conv = .error e ∧ App.nonRetryableMsg e = false := by
    intro i hi1 hi3
    interval_cases i
    · exact ⟨e1, h1, h1t⟩
    · exact ⟨e2, h2, h2t⟩
  rw [App.retryAttempts_success_at gen conv 3 3 r (by omega) le_rfl htrans h3]
  simp [App.backoffs, List.range_succ]

/-- Witness for C1 at a concrete stub: fails with `"timeout"` and
`"server busy"`, then succeeds with `"  hello "`. -/
theorem chat_with_gemini_retry_success_witness :
    App.chat_with_gemini
        (fun i _ => match i with
          | 1 => .error "timeout"
          | 2 => .error "server busy"
          | _ => .ok "  hello ") (PyVal.list []) 3 =
      (.returns (some "hello"), 3, [1, 2]) := by
  have h := chat_with_gemini_retry_success
    (fun i _ => match i with
      | 1 => .error "timeout"
      | 2 => .error "server busy"
      | _ => .ok "  hello ") [] "" "timeout" "server busy" "  hello "
    rfl rfl (by decide) rfl (by decide) rfl
  rw [h]
  decide

/-- C2. Non-retryable classification: if the capability fails transiently on
every attempt before `j` and at attempt `j ≤ retries` raises a failure whose
lowercased message contains one of the markers `403`, `leaked`, `invalid`,
`permission`, then `chat_with_gemini` raises the fatal `RuntimeError`
immediately: the capability was invoked exactly `j` times (never again after
the marker failure) and no sleep follows the marker failure (the sleep trace
is exactly the `j - 1` sleeps of the earlier transient failures). -/
theorem chat_with_gemini_nonretryable_aborts
    (gen : Nat → String → Except String String) (msgs : List PyVal)
    (conv e : String) (retries j : Nat)
    (hconv : App.buildConversation msgs = .ok conv)
    (hj1 : 1 ≤ j) (hjr : j ≤ retries)
    (htrans : ∀ i, 1 ≤ i → i < j →
      ∃ e', gen i conv = .error e' ∧ App.nonRetryableMsg e' = false)
    (hg : gen j conv = .error e) (hnr : App.nonRetryableMsg e = true) :
    App.chat_with_gemini gen (PyVal.list msgs) retries =
      (.raises ⟨"RuntimeError", App.nonRetryableErrMsg e⟩, j,
        App.backoffs (j - 1)) := by
  rw [App.chat_with_gemini_run gen msgs conv retries hconv]
  exact App.retryAttempts_nonretryable_at gen conv retries j e hj1 hjr htrans hg hnr

/-- Witness for C2: a stub whose failure message contains `403` is called
exactly once, the call raises, and there is no sleep. -/
theorem chat_with_gemini_nonretryable_aborts_witness :
    App.chat_with_gemini (fun _ _ => .error "HTTP 403 Forbidden")
        (PyVal.list []) 3 =
      (.raises ⟨"RuntimeError", "Generative API error: HTTP 403 Forbidden"⟩,
        1, []) := by
  have h := chat_with_gemini_nonretryable_aborts
    (fun _ _ => .error "HTTP 403 Forbidden") [] "" "HTTP 403 Forbidden" 3 1
    rfl (by omega) (by omega) (by omega) rfl (by decide)
  rw [h]
  decide

/-- C3. Retries exhausted: if the capability fails transiently on every
attempt, `chat_with_gemini` raises a fatal `RuntimeError` after exactly
`retries` invocations (3 under the default budget), and its message can
never equal the message of the non-retryable fatal error, so callers can
distinguish the two cases. -/
theorem chat_with_gemini_retries_exhausted
    (gen : Nat → String → Except String String) (msgs : List PyVal)
    (conv : String) (retries : Nat)
    (hconv : App.buildConversation msgs = .ok conv) (hr : 1 ≤ retries)
    (htrans : ∀ i, 1 ≤ i → i ≤ retries →
      ∃ e, gen i conv = .error e ∧ App.nonRetryableMsg e = false) :
    (∃ e, gen retries conv = .error e ∧
      App.chat_with_gemini gen (PyVal.list msgs) retries =
        (.raises ⟨"RuntimeError", App.exhaustedErrMsg retries e⟩, retries,
          App.backoffs (retries - 1))) ∧
    ∀ (r : Nat) (e e' : String),
      App.exhaustedErrMsg r e ≠ App.nonRetryableErrMsg e' := by
  refine ⟨?_, App.exhaustedErrMsg_ne_nonRetryableErrMsg⟩
  obtain ⟨e, hg, ht⟩ := htrans retries hr le_rfl
  refine ⟨e, hg, ?_⟩
  rw [App.chat_with_gemini_run gen msgs conv retries hconv]
  exact App.retryAttempts_exhausted gen conv retries e hr
    (fun i h1 h2 => htrans i h1 (by omega)) hg ht

/-- Witness for C3: an always-transiently-failing stub with budget 3 raises
the exhausted error after exactly 3 calls. -/
theorem chat_with_gemini_retries_exhausted_witness :
    App.chat_with_gemini (fun _ _ => .error "flaky") (PyVal.list []) 3 =
      (.raises ⟨"RuntimeError",
        "Generative API failed after 3 attempts: flaky"⟩, 3, [1, 2]) := by
  have h := chat_with_gemini_retries_exhausted
    (fun _ _ => .error "flaky") [] "" 3 rfl (by omega)
    (fun i _ _ => ⟨"flaky", rfl, by decide⟩)
  obtain ⟨⟨e, hg, hrun⟩, _⟩ := h
  have he : e = "flaky" := by
    have := hg
    simp only [Except.error.injEq] at this
    exact this.symm
  rw [he] at hrun
  rw [hrun]
  decide

namespace App

/-- Trace invariant of the retry loop: starting at the top of attempt `a`
(with the state the loop actually carries there), the final call count `c`
satisfies `a ≤ c ≤ retries`, the sleep trace is exactly the capped
exponential schedule of the first `c - 1` retries, and every attempt that
was followed by another one failed transiently. -/
lemma retryAttempts_trace (gen : Nat → String → Except String String)
    (conv : String) (retries : Nat) :
    ∀ fuel a out calls sleeps, fuel = retries + 1 - a → 1 ≤ a → a ≤ retries →
    retryAttempts gen conv retries fuel a (min (2 ^ (a - 1)) 10) (a - 1)
        (backoffs (a - 1)) = (out, calls, sleeps) →
    a ≤ calls ∧ calls ≤ retries ∧ sleeps = backoffs (calls - 1) ∧
      ∀ i, a ≤ i → i < calls →
        ∃ e, gen i conv = .error e ∧ nonRetryableMsg e = false := by
  intro fuel
  induction fuel with
  | zero => intro a out calls sleeps hf h1 hr _; omega
  | succ f ih =>
    intro a out calls sleeps hf h1 hr hrun
    rw [retryAttempts] at hrun
    cases hg : gen a conv with
    | ok r =>
      rw [hg] at hrun
      simp only [Prod.mk.injEq] at hrun
      obtain ⟨-, hc, hs⟩ := hrun
      refine ⟨by omega, by omega, ?_, ?_⟩
      · rw [← hs]; congr 1; omega
      · intro i hi1 hi2; omega
    | error e =>
      rw [hg] at hrun
      dsimp only at hrun
      cases ht : nonRetryableMsg e with
      | true =>
        rw [ht] at hrun
        simp only [if_true, Prod.mk.injEq] at hrun
        obtain ⟨-, hc, hs⟩ := hrun
        refine ⟨by omega, by omega, ?_, ?_⟩
        · rw [← hs]; congr 1; omega
        · intro i hi1 hi2; omega
      | false =>
        rw [ht] at hrun
        simp only [Bool.false_eq_true, if_false] at hrun
        by_cases hlt : a < retries
        · rw [if_pos hlt] at hrun
          have ha : a - 1 + 1 = a := by omega
          rw [backoff_double, ha, ← backoffs_succ, ha] at hrun
          have hrw : min (2 ^ (a + 1 - 1)) 10 = min (2 ^ a) 10 := by simp
          have hrw2 : a + 1 - 1 = a := rfl
          have := ih (a + 1) out calls sleeps (by omega) (by omega) (by omega)
            (by rw [hrw, hrw2]; exact hrun)
          obtain ⟨hac, hcr, hs, htr⟩ := this
          refine ⟨by omega, hcr, hs, ?_⟩
          intro i hi1 hi2
          rcases eq_or_lt_of_le hi1 with heq | hgt
          · exact heq ▸ ⟨e, hg, ht⟩
          · exact htr i (by omega) hi2
        · rw [if_neg hlt] at hrun
          simp only [Prod.mk.injEq] at hrun
          obtain ⟨-, hc, hs⟩ := hrun
          refine ⟨by omega, by omega, ?_, ?_⟩
          · rw [← hs]; congr 1; omega
          · intro i hi1 hi2; omega

end App

/-- C4. Backoff schedule: for every capability, history and positive attempt
budget, the run of `chat_with_gemini` makes between 1 and `retries`
capability calls; its sleep trace is exactly one sleep per non-final call,
the `k`-th sleep (1-based) lasting `min (2 ^ (k - 1)) 10` time units — so no
sleep follows the final attempt (in particular none follows a non-retryable
failure, which always ends the run) — and every call that was followed by
another one had failed transiently. -/
theorem chat_with_gemini_backoff_schedule
    (gen : Nat → String → Except String String) (msgs : List PyVal)
    (conv : String) (retries : Nat) (out : App.ChatOutcome)
    (calls : Nat) (sleeps : List Nat)
    (hconv : App.buildConversation msgs = .ok conv) (hr : 1 ≤ retries)
    (hrun : App.chat_with_gemini gen (PyVal.list msgs) retries =
      (out, calls, sleeps)) :
    1 ≤ calls ∧ calls ≤ retries ∧
      sleeps = (List.range (calls - 1)).map (fun k => min (2 ^ k) 10) ∧
      ∀ i, 1 ≤ i → i < calls →
        ∃ e, gen i conv = .error e ∧ App.nonRetryableMsg e = false := by
  rw [App.chat_with_gemini_run gen msgs conv retries hconv] at hrun
  have h := App.retryAttempts_trace gen conv retries retries 1 out calls sleeps
    (by omega) le_rfl hr (by simpa [App.backoffs] using hrun)
  exact ⟨h.1, h.2.1, h.2.2.1, h.2.2.2⟩

/-- Witness for C4 at a concrete stub with budget 6 failing transiently
throughout: five sleeps `[1, 2, 4, 8, 10]`, doubling and capped at 10. -/
theorem chat_with_gemini_backoff_schedule_witness :
    1 ≤ 6 ∧ (6 : Nat) ≤ 6 ∧
      ([1, 2, 4, 8, 10] : List Nat) =
        (List.range (6 - 1)).map (fun k => min (2 ^ k) 10) ∧
      ∀ i, 1 ≤ i → i < 6 →
        ∃ e, (fun (_ : Nat) (_ : String) =>
            (.error "flaky" : Except String String)) i "" = .error e ∧
          App.nonRetryableMsg e = false :=
  chat_with_gemini_backoff_schedule
    (fun _ _ => .error "flaky") [] "" 6
    (.raises ⟨"RuntimeError", App.exhaustedErrMsg 6 "flaky"⟩) 6 [1, 2, 4, 8, 10]
    rfl (by omega) (by decide)

namespace Charan

/-- A successful lookup comes from a stored row whose question is
byte-identical to the key. -/
lemma dbLookup_isSome_mem (db : List CacheEntry) (q : String)
    (h : (dbLookup db q).isSome) : ∃ e ∈ db, e.question = q := by
  unfold dbLookup at h
  cases hf : db.find? (fun e => e.question == q) with
  | none => rw [hf] at h; simp at h
  | some e =>
    refine ⟨e, List.mem_of_find?_eq_some hf, ?_⟩
    have := List.find?_some hf
    exact beq_iff_eq.mp this

/-- Appending a row for a different question does not change a lookup. -/
lemma dbLookup_append_other (db : List CacheEntry) (q q' r : String)
    (hne : q ≠ q') :
    dbLookup (db ++ [⟨q, r⟩]) q' = dbLookup db q' := by
  unfold dbLookup
  have hb : ((⟨q, r⟩ : CacheEntry).question == q') = false :=
    beq_eq_false_iff_ne.mpr hne
  rw [List.find?_append]
  cases hf : db.find? (fun e => e.question == q') <;> simp [List.find?, hb]

/-- The store after a request is the old store, extended by at most one new
row at the end. -/
lemma get_response_db_grows (gen : String → String) (db : List CacheEntry)
    (q : String) : db <+: (get_response gen db q).db := by
  unfold get_response
  cases h : dbLookup db q with
  | none => exact List.prefix_append db _
  | some r => exact List.prefix_refl db

/-- Requests compose: running a concatenated request list runs the second
part from the store the first part produced. -/
lemma runRequests_append (gen : String → String) (qs rs : List String)
    (db : List CacheEntry) :
    runRequests gen (qs ++ rs) db = runRequests gen rs (runRequests gen qs db) := by
  induction qs generalizing db with
  | nil => rfl
  | cons q qs ih => simp [runRequests, ih]

/-- The store only ever grows at the end across a request sequence. -/
lemma runRequests_grows (gen : String → String) (qs : List String)
    (db : List CacheEntry) : db <+: runRequests gen qs db := by
  induction qs generalizing db with
  | nil => exact List.prefix_refl db
  | cons q qs ih => exact (get_response_db_grows gen db q).trans (ih _)

/-- A miss inserts a question that was not stored, so question uniqueness is
preserved by each request. -/
lemma get_response_nodup (gen : String → String) (db : List CacheEntry)
    (q : String) (h : (db.map CacheEntry.question).Nodup) :
    ((get_response gen db q).db.map CacheEntry.question).Nodup := by
  unfold get_response
  cases hq : dbLookup db q with
  | some r => exact h
  | none =>
    simp only [List.map_append, List.map_cons, List.map_nil]
    rw [List.nodup_append]
    refine ⟨h, List.nodup_singleton q, ?_⟩
    intro x hx hx'
    simp only [List.mem_singleton] at hx'
    subst hx'
    obtain ⟨e, he, heq⟩ := List.mem_map.mp hx
    unfold dbLookup at hq
    rw [Option.map_eq_none'] at hq
    have := List.find?_eq_none.mp hq e he
    simp only [beq_iff_eq] at this
    exact this heq

/-- Question uniqueness holds after any request sequence from a store that
had it. -/
lemma runRequests_nodup (gen : String → String) (qs : List String)
    (db : List CacheEntry) (h : (db.map CacheEntry.question).Nodup) :
    ((runRequests gen qs db).map CacheEntry.question).Nodup := by
  induction qs generalizing db with
  | nil => exact h
  | cons q qs ih => exact ih _ (get_response_nodup gen db q h)

/-- In a store with unique questions, the first row matching a stored row's
question is that row itself. -/
lemma find?_eq_of_mem_nodup (db : List CacheEntry) (e : CacheEntry)
    (hmem : e ∈ db) (hnd : (db.map CacheEntry.question).Nodup) :
    db.find? (fun x => x.question == e.question) = some e := by
  induction db with
  | nil => cases hmem
  | cons d rest ih =>
    simp only [List.map_cons, List.nodup_cons] at hnd
    rcases List.mem_cons.mp hmem with rfl | hrest
    · simp [List.find?]
    · have hne : d.question ≠ e.question := by
        intro hq
        exact hnd.1 (hq ▸ List.mem_map.mpr ⟨e, hrest, rfl⟩)
      have hb : (d.question == e.question) = false := beq_eq_false_iff_ne.mpr hne
      simp only [List.find?, hb]
      exact ih hrest hnd.2

/-- On a hit, the stored response is returned, the store is unchanged and
the capability is not invoked. -/
lemma get_response_hit (gen : String → String) (db : List CacheEntry)
    (q r : String) (hr : dbLookup db q = some r) :
    get_response gen db q = ⟨r, db, 0⟩ := by
  simp [get_response, hr]

/-- On a miss, the capability is invoked once, the stripped response is
appended under the verbatim question, and that response is returned. -/
lemma get_response_miss (gen : String → String) (db : List CacheEntry)
    (q : String) (h : dbLookup db q = Option.none) :
    get_response gen db q = ⟨pyStrip (gen q), db ++ [⟨q, pyStrip (gen q)⟩], 1⟩ := by
  simp [get_response, h, chat_with_gemini]

/-- A row of a unique-question store keeps answering lookups for its question
in any extension of that store. -/
lemma dbLookup_extends (db db' : List CacheEntry) (e : CacheEntry)
    (hpre : db <+: db') (hmem : e ∈ db)
    (hnd : (db.map CacheEntry.question).Nodup) :
    dbLookup db' e.question = some e.response := by
  obtain ⟨t, rfl⟩ := hpre
  unfold dbLookup
  rw [List.find?_append, find?_eq_of_mem_nodup db e hmem hnd]
  rfl

end Charan

/-- C5. Cache hit/miss behavior of Service B's `get_response`: when the store
holds a row for the exact question, the stored response is returned and the
capability is not invoked (0 calls, store unchanged); otherwise the
capability is invoked exactly once, the `(question, response)` pair is
appended to the store, and that response is returned. -/
theorem get_response_cache (gen : String → String)
    (db : List Charan.CacheEntry) (q : String) :
    (∀ r, Charan.dbLookup db q = some r →
      Charan.get_response gen db q = ⟨r, db, 0⟩) ∧
    (Charan.dbLookup db q = Option.none →
      Charan.get_response gen db q =
        ⟨pyStrip (gen q), db ++ [⟨q, pyStrip (gen q)⟩], 1⟩) := by
  exact ⟨Charan.get_response_hit gen db q, Charan.get_response_miss gen db q⟩

/-- Witness for C5: a first request for `"Q1"` with a stub returning
`" A1 "` calls the capability once and persists `(Q1, A1)`; the identical
second request returns `"A1"` with no further call. -/
theorem get_response_cache_witness :
    Charan.get_response (fun _ => " A1 ") [] "Q1" =
      ⟨"A1", [⟨"Q1", "A1"⟩], 1⟩ ∧
    Charan.get_response (fun _ => " A1 ") [⟨"Q1", "A1"⟩] "Q1" =
      ⟨"A1", [⟨"Q1", "A1"⟩], 0⟩ := by
  constructor
  · have h := (get_response_cache (fun _ => " A1 ") [] "Q1").2 (by decide)
    rw [h]
    decide
  · exact (get_response_cache (fun _ => " A1 ") [⟨"Q1", "A1"⟩] "Q1").1 "A1" (by decide)

/-- C6. Exact-match keying: a lookup succeeds only through a row whose
question is byte-identical to the key; caching one question never answers a
different question (no trimming or case-folding); and when neither of two
distinct questions is stored, a first request with each of them invokes the
capability (once each), even after the other has been cached. -/
theorem get_response_exact_match (gen : String → String)
    (db : List Charan.CacheEntry) (q q' : String) :
    ((Charan.dbLookup db q).isSome → ∃ e ∈ db, e.question = q) ∧
    (q ≠ q' → ∀ r, Charan.dbLookup (db ++ [⟨q, r⟩]) q' = Charan.dbLookup db q') ∧
    (q ≠ q' → Charan.dbLookup db q = Option.none →
      Charan.dbLookup db q' = Option.none →
      (Charan.get_response gen db q).apiCalls = 1 ∧
      (Charan.get_response gen (Charan.get_response gen db q).db q').apiCalls = 1) := by
  refine ⟨Charan.dbLookup_isSome_mem db q, ?_, ?_⟩
  · intro hne r
    exact Charan.dbLookup_append_other db q q' r hne
  · intro hne hq hq'
    have hmiss := Charan.get_response_miss gen db q hq
    constructor
    · rw [hmiss]
    · rw [hmiss]
      have hlook : Charan.dbLookup (db ++ [⟨q, pyStrip (gen q)⟩]) q' = Option.none := by
        rw [Charan.dbLookup_append_other db q q' _ hne]
        exact hq'
      rw [Charan.get_response_miss gen _ q' hlook]

/-- Witness for C6 at `"Q1"` versus `"q1"`: distinct keys, both requests
invoke the capability. -/
theorem get_response_exact_match_witness :
    (Charan.get_response (fun _ => "A1") [] "Q1").apiCalls = 1 ∧
    (Charan.get_response (fun _ => "A1")
      (Charan.get_response (fun _ => "A1") [] "Q1").db "q1").apiCalls = 1 :=
  (get_response_exact_match (fun _ => "A1") [] "Q1" "q1").2.2
    (by decide) (by decide) (by decide)

/-- C7. Cache uniqueness and persistence: after any sequence of requests
from the fresh store `init_db`, the store has at most one row per distinct
question; and any row present after some requests is still present — at the
same position and with the same response — after any further requests, so
its question keeps looking up exactly that response. -/
theorem runRequests_unique_persistent (gen : String → String)
    (qs rest : List String) :
    ((Charan.runRequests gen qs Charan.init_db).map
      Charan.CacheEntry.question).Nodup ∧
    Charan.runRequests gen qs Charan.init_db <+:
      Charan.runRequests gen (qs ++ rest) Charan.init_db ∧
    ∀ e ∈ Charan.runRequests gen qs Charan.init_db,
      Charan.dbLookup (Charan.runRequests gen (qs ++ rest) Charan.init_db)
        e.question = some e.response := by
  have hnd : ((Charan.runRequests gen qs Charan.init_db).map
      Charan.CacheEntry.question).Nodup :=
    Charan.runRequests_nodup gen qs Charan.init_db (by simp [Charan.init_db])
  have hpre : Charan.runRequests gen qs Charan.init_db <+:
      Charan.runRequests gen (qs ++ rest) Charan.init_db := by
    rw [Charan.runRequests_append]
    exact Charan.runRequests_grows gen rest _
  refine ⟨hnd, hpre, ?_⟩
  intro e he
  exact Charan.dbLookup_extends _ _ e hpre he hnd

/-- Witness for C7: requests `[Q1, Q1, Q2]` followed by `[q1]` leave the row
`(Q1, A)` in place and still looked up. -/
theorem runRequests_unique_persistent_witness :
    Charan.dbLookup
      (Charan.runRequests (fun _ => "A") (["Q1", "Q1", "Q2"] ++ ["q1"])
        Charan.init_db) "Q1" = some "A" := by
  have h := (runRequests_unique_persistent (fun _ => "A")
    ["Q1", "Q1", "Q2"] ["q1"]).2.2 ⟨"Q1", "A"⟩ (by decide)
  exact h

/-- C10. On a cache miss, Service B stores and returns the external model's
response text with leading and trailing whitespace stripped, while the
question is stored byte-for-byte unmodified. -/
theorem get_response_miss_trims_response (gen : String → String)
    (db : List Charan.CacheEntry) (q : String)
    (h : Charan.dbLookup db q = Option.none) :
    (Charan.get_response gen db q).response = pyStrip (gen q) ∧
    (Charan.get_response gen db q).db = db ++ [⟨q, pyStrip (gen q)⟩] ∧
    (Charan.get_response gen db q).apiCalls = 1 := by
  have hm := Charan.get_response_miss gen db q h
  rw [hm]
  exact ⟨rfl, rfl, rfl⟩

/-- Witness for C10: a question with surrounding whitespace is stored
verbatim while the response is stripped. -/
theorem get_response_miss_trims_response_witness :
    (Charan.get_response (fun _ => "  padded answer\n") [] " Q ").response =
        "padded answer" ∧
    (Charan.get_response (fun _ => "  padded answer\n") [] " Q ").db =
        [⟨" Q ", "padded answer"⟩] ∧
    (Charan.get_response (fun _ => "  padded answer\n") [] " Q ").apiCalls = 1 := by
  have h := get_response_miss_trims_response (fun _ => "  padded answer\n")
    [] " Q " (by decide)
  refine ⟨?_, ?_, h.2.2⟩
  · rw [h.1]; decide
  · rw [h.2.1]; decide

/-! ## Prompt assembly (C9) and HTTP boundary (C8) -/

/-- Encodes a `ConversationTurn` with the given role and content as the
request dict that `chat_with_gemini` iterates over. -/
def specTurn (p : String × String) : PyVal :=
  PyVal.dict [("role", .str p.1), ("content", .str p.2)]

/-- The line the spec prescribes for one turn: `"You: <content>"` plus a
newline when the role is `user`, `"Bot: <content>"` plus a newline
otherwise. -/
def specLine (p : String × String) : String :=
  (if p.1 = "user" then "You: " else "Bot: ") ++ p.2 ++ "\n"

/-- Concatenation of a list of lines, in order. -/
def specConcat (lines : List String) : String :=
  lines.foldr (· ++ ·) ""

/-- C9. Prompt assembly: for every ordered history of conversation turns,
the assembled prompt is the in-order concatenation of one line per turn —
`"You: <content>\n"` for user turns, `"Bot: <content>\n"` for every other
role — and in particular `[user: "hi", bot: "hello"]` renders to
`"You: hi\nBot: hello\n"`. -/
theorem buildConversation_spec :
    (∀ turns : List (String × String),
      App.buildConversation (turns.map specTurn) =
        .ok (specConcat (turns.map specLine))) ∧
    App.buildConversation
        [PyVal.dict [("role", .str "user"), ("content", .str "hi")],
         PyVal.dict [("role", .str "bot"), ("content", .str "hello")]] =
      .ok "You: hi\nBot: hello\n" := by
  constructor
  · intro turns
    induction turns with
    | nil => rfl
    | cons p rest ih =>
      have hline : App.renderTurn (specTurn p) = .ok (specLine p) := by
        simp only [App.renderTurn, specTurn, List.find?, specLine,
          App.isUserRole, pyStr]
        by_cases h : p.1 = "user" <;> simp [h]
      simp only [List.map_cons, App.buildConversation, hline, ih,
        specConcat, List.foldr, Except.bind]
      rfl
  · rfl

namespace App

/-- Reduction of `handle_submit` on a body that decodes to a JSON object:
the `history` default-get succeeds, and everything that follows sits inside
the `try` block. -/
lemma handle_submit_dict (gen : Nat → String → Except String String)
    (fields : List (String × PyVal)) :
    handle_submit gen (some (PyVal.dict fields)) =
      (match pyLen (((fields.find? (fun p => p.1 == "history")).map
          Prod.snd).getD (PyVal.list [])) with
       | .error e =>
          .resp 500 [("error", .str "Internal server error"), ("detail", .str e)]
       | .ok _ =>
          match chat_with_gemini gen (((fields.find? (fun p => p.1 == "history")).map
              Prod.snd).getD (PyVal.list [])) with
          | (.raises e, _, _) =>
            .resp 500 [("error", .str "Internal server error"),
              ("detail", .str e.msg)]
          | (.returns v, _, _) => .resp 200 [("response", optToPy v)]) := rfl

end App

/-- C8 counterexample. The claim that `handle_submit` catches every failure
for every request body is false: a body that is valid JSON but not an
object — here the empty JSON array — makes `data.get('history', [])` raise
`AttributeError` on the line *before* the `try` block, and that exception
escapes the handler uncaught. -/
theorem handle_submit_escape_counterexample :
    App.handle_submit (fun _ _ => .ok "hi") (some (PyVal.list [])) =
      .unhandled ⟨"AttributeError",
        "AttributeError: object has no attribute get"⟩ := rfl

/-- C8 (amended). For every request whose body decodes to a JSON object, the
handler lets no failure escape: it answers 200 with a `{response: …}`
payload, or 500 with `{error: "Internal server error", detail: <raw str(e)>}`;
in particular a fatal error raised by the retry controller yields exactly
the 500 payload carrying its message, and a successful generation yields
200 with the trimmed text.  (Bodies that are malformed or not a JSON object
fail on the two lines before the `try` block and do escape; see the
counterexample.) -/
theorem handle_submit_boundary (gen : Nat → String → Except String String)
    (fields : List (String × PyVal)) :
    ((∃ v, App.handle_submit gen (some (PyVal.dict fields)) =
        .resp 200 [("response", v)]) ∨
     (∃ d, App.handle_submit gen (some (PyVal.dict fields)) =
        .resp 500 [("error", .str "Internal server error"),
          ("detail", .str d)])) ∧
    (∀ hist n e tr, pyGet (PyVal.dict fields) "history" (PyVal.list []) = .ok hist →
      pyLen hist = .ok n →
      App.chat_with_gemini gen hist = (App.ChatOutcome.raises e, tr) →
      App.handle_submit gen (some (PyVal.dict fields)) =
        .resp 500 [("error", .str "Internal server error"),
          ("detail", .str e.msg)]) ∧
    (∀ hist n t tr, pyGet (PyVal.dict fields) "history" (PyVal.list []) = .ok hist →
      pyLen hist = .ok n →
      App.chat_with_gemini gen hist = (App.ChatOutcome.returns (some t), tr) →
      App.handle_submit gen (some (PyVal.dict fields)) =
        .resp 200 [("response", PyVal.str t)]) := by
  have hget : pyGet (PyVal.dict fields) "history" (PyVal.list []) =
      .ok (((fields.find? (fun p => p.1 == "history")).map
        Prod.snd).getD (PyVal.list [])) := rfl
  refine ⟨?_, ?_, ?_⟩
  · rw [App.handle_submit_dict]
    cases hlen : pyLen (((fields.find? (fun p => p.1 == "history")).map
        Prod.snd).getD (PyVal.list [])) with
    | error e => exact Or.inr ⟨e, rfl⟩
    | ok n =>
      rcases hchat : App.chat_with_gemini gen
          (((fields.find? (fun p => p.1 == "history")).map
            Prod.snd).getD (PyVal.list [])) with ⟨out, calls, sleeps⟩
      cases out with
      | raises e => exact Or.inr ⟨e.msg, by rw [hchat]⟩
      | returns v => exact Or.inl ⟨App.optToPy v, by rw [hchat]⟩
  · intro hist n e tr hh hlen hchat
    have hh' : hist = ((fields.find? (fun p => p.1 == "history")).map
        Prod.snd).getD (PyVal.list []) := by
      rw [hget] at hh
      exact (Except.ok.inj hh).symm
    subst hh'
    rw [App.handle_submit_dict, hlen, hchat]
  · intro hist n t tr hh hlen hchat
    have hh' : hist = ((fields.find? (fun p => p.1 == "history")).map
        Prod.snd).getD (PyVal.list []) := by
      rw [hget] at hh
      exact (Except.ok.inj hh).symm
    subst hh'
    rw [App.handle_submit_dict, hlen, hchat]
    rfl

/-- Witness for the amended C8: an object body with an empty history and a
succeeding capability gets 200, and the same body with a capability failing
with a `403` marker gets the 500 error payload with the raw detail. -/
theorem handle_submit_boundary_witness :
    App.handle_submit (fun _ _ => .ok " hi ") (some (PyVal.dict [])) =
      .resp 200 [("response", PyVal.str "hi")] ∧
    App.handle_submit (fun _ _ => .error "HTTP 403 Forbidden")
        (some (PyVal.dict [])) =
      .resp 500 [("error", .str "Internal server error"),
        ("detail", .str "Generative API error: HTTP 403 Forbidden")] := by
  constructor
  · exact (handle_submit_boundary (fun _ _ => .ok " hi ") []).2.2
      (PyVal.list []) 0 "hi" (1, []) rfl rfl (by decide)
  · exact (handle_submit_boundary (fun _ _ => .error "HTTP 403 Forbidden") []).2.1
      (PyVal.list []) 0
      ⟨"RuntimeError", "Generative API error: HTTP 403 Forbidden"⟩ (1, [])
      rfl rfl (by decide)
